import Mathlib

/-!
Verification of the AI-proposed file edit pipeline: the `DiffViewProvider`
edit session (open / update / saveChanges / revertChanges / reset), the
`applyDiffTool` orchestrator, the per-path mistake counter, and the
`promiseTimeout` guard.  Strings are modelled by Lean `String` (a wrapper
around `List Char`); file-system and editor effects are modelled as explicit
action traces; collaborator outcomes (access control, strategy results,
diagnostics) are inputs to the model.
-/

namespace RooEdit

/-! ## Byte-order-mark stripping (`strip-bom` package and `stripAllBOMs`) -/

/-- The Unicode byte-order mark U+FEFF. -/
def bomChar : Char := Char.ofNat 0xFEFF

/-- One pass of the `strip-bom` npm package: remove a single leading U+FEFF
character if present, otherwise return the input unchanged. -/
def stripBom : List Char → List Char
  | [] => []
  | c :: rest => if c = bomChar then rest else c :: rest

/-- The do-while loop of `DiffViewProvider.stripAllBOMs`, written with explicit
fuel so that it is structurally recursive: repeat `stripBom` until a pass
changes nothing.  Fuel `s.length` always suffices because every productive
pass strictly shortens the string. -/
def stripLoop : Nat → List Char → List Char
  | 0, s => s
  | Nat.succ n, s =>
    let r := stripBom s
    if r = s then s else stripLoop n r

/-- `DiffViewProvider.stripAllBOMs`: iterate `stripBom` to a fixed point. -/
def stripAllBOMs (s : List Char) : List Char := stripLoop s.length s

/-- `stripBom` lifted to `String`. -/
def stripBomStr (s : String) : String := String.mk (stripBom s.data)

/-- `stripAllBOMs` lifted to `String`. -/
def stripAllBOMsStr (s : String) : String := String.mk (stripAllBOMs s.data)

/-! ## JS string.split("\n") and its inverse, for line bookkeeping -/

/-- JavaScript `s.split("\n")` on the character list level: always returns at
least one (possibly empty) segment. -/
def splitLines : List Char → List (List Char)
  | [] => [[]]
  | c :: rest =>
    if c = '\n' then [] :: splitLines rest
    else
      match splitLines rest with
      | [] => [[c]]
      | l :: ls => (c :: l) :: ls

/-- Join segments back with newlines (inverse of `splitLines`). -/
def joinLines : List (List Char) → List Char
  | [] => []
  | [l] => l
  | l :: ls => l ++ '\n' :: joinLines ls

/-- `splitLines` lifted to `String`. -/
def splitLinesStr (s : String) : List String := (splitLines s.data).map String.mk

/-- Modelled from the spec: the truncation the spec attributes to direct-write
mode — "the content passed on a non-final call is truncated to drop its last
(possibly incomplete) line before use".  Drops the final segment of the
newline split and rejoins the rest. -/
def specTruncateDropLastLine (s : String) : String :=
  String.mk (joinLines ((splitLines s.data).dropLast))

/-! ## JavaScript truthiness on optional strings

TypeScript guards like `if (!this.relPath)` treat both `undefined` and the
empty string as falsy.  `getTruthy` returns the string exactly when the
optional value is truthy. -/

def isTruthy : Option String → Bool
  | none => false
  | some s => !s.isEmpty

def getTruthy : Option String → Option String
  | none => none
  | some s => if s.isEmpty then none else some s

/-- `path.resolve(cwd, rel)`, an external Node builtin, modelled as a posix
join.  The claims only require it to be a deterministic function of
`cwd` and `rel`. -/
def resolvePath (cwd rel : String) : String := cwd ++ "/" ++ rel

/-! ## The `DiffViewProvider` edit session

The session state carries the fields of the class that the modelled methods
read or write.  Editor-surface objects (`activeDiffEditor`, the two
decoration controllers) are represented only by presence flags, since the
modelled control flow branches solely on their presence; decoration and
scrolling calls are purely presentational and produce no file-system
actions.  `preDiagnostics` is kept as an opaque token list. -/

inductive EditType where
  | create
  | modify
  deriving DecidableEq, Repr

structure DiffViewState where
  cwd : String
  editType : Option EditType
  isEditing : Bool
  originalContent : Option String
  createdDirs : List String
  documentWasOpen : Bool
  relPath : Option String
  newContent : Option String
  streamedLines : List String
  preDiagnostics : List String
  skipDiffView : Bool
  hasActiveDiffEditor : Bool
  hasControllers : Bool
  deriving DecidableEq, Repr

/-- File-system effects of the session methods, as a trace.  `rmdirTry`
records an attempted directory removal together with whether it failed; a
failure is logged by the source and never propagated. -/
inductive FsAction where
  | writeFile (path content : String)
  | unlink (path : String)
  | rmdirTry (dir : String) (failed : Bool)
  deriving DecidableEq, Repr

/-- `DiffViewProvider.reset`: clears `editType`, `isEditing`,
`originalContent`, `createdDirs`, `documentWasOpen`, the editor and
controller references, `streamedLines` and `preDiagnostics`.  (`relPath`,
`newContent` and `skipDiffView` are not cleared by the source.) -/
def resetState (st : DiffViewState) : DiffViewState :=
  { st with
    editType := none
    isEditing := false
    originalContent := none
    createdDirs := []
    documentWasOpen := false
    streamedLines := []
    preDiagnostics := []
    hasActiveDiffEditor := false
    hasControllers := false }

/-- `DiffViewProvider.update(accumulatedContent, isFinal)`.  Guard: throws if
`relPath` is falsy.  In `skipDiffView` (direct-write) mode the method writes
`stripAllBOMs(accumulatedContent)` to disk immediately and records the full
newline split in `streamedLines`.  Otherwise it throws if the decoration
controllers or the diff editor are missing, and only updates in-memory
state: the newline split, with the last (possibly partial) segment popped
on non-final calls; the final call additionally drives the read-only
preview surface, which produces no file-system action. -/
def update (st : DiffViewState) (accumulatedContent : String) (isFinal : Bool) :
    Except String (DiffViewState × List FsAction) :=
  match getTruthy st.relPath with
  | none => Except.error "Required values not set"
  | some rel =>
    let st1 := { st with newContent := some accumulatedContent }
    let absolutePath := resolvePath st.cwd rel
    if st.skipDiffView then
      Except.ok ({ st1 with streamedLines := splitLinesStr accumulatedContent },
        [FsAction.writeFile absolutePath (stripAllBOMsStr accumulatedContent)])
    else if !st.hasControllers then
      Except.error "Decoration controllers not initialized"
    else if !st.hasActiveDiffEditor then
      Except.error "User closed text editor, unable to update view..."
    else
      let accumulatedLines := splitLinesStr accumulatedContent
      let accumulatedLines := if isFinal then accumulatedLines else accumulatedLines.dropLast
      Except.ok ({ st1 with streamedLines := accumulatedLines }, [])

/-- The file-system actions performed by `update` (empty when it throws). -/
def updateActions (st : DiffViewState) (content : String) (isFinal : Bool) : List FsAction :=
  match update st content isFinal with
  | Except.ok r => r.2
  | Except.error _ => []

/-- Result record of `DiffViewProvider.saveChanges`. -/
structure SaveChangesResult where
  newProblemsMessage : Option String
  userEdits : Option String
  finalContent : Option String
  deriving DecidableEq, Repr

/-- `DiffViewProvider.saveChanges`.  If `relPath` or `newContent` is falsy
(absent or empty), returns all three fields `undefined` and performs no
write.  Otherwise writes `stripAllBOMs(newContent)` to the resolved path and
returns the unstripped `newContent` as `finalContent`; `userEdits` is always
`undefined`.  `newProblems` is the text produced by the external diagnostics
collaborator; showing/closing editors is presentational and not traced. -/
def saveChanges (st : DiffViewState) (newProblems : String) :
    SaveChangesResult × List FsAction :=
  match getTruthy st.relPath, getTruthy st.newContent with
  | some rel, some nc =>
    let absolutePath := resolvePath st.cwd rel
    let newProblemsMessage :=
      if newProblems.length > 0 then
        "\n\nNew problems detected after saving the file:\n" ++ newProblems
      else ""
    (⟨some newProblemsMessage, none, st.newContent⟩,
     [FsAction.writeFile absolutePath (stripAllBOMsStr nc)])
  | _, _ => (⟨none, none, none⟩, [])

/-- `DiffViewProvider.revertChanges`, parametrized by an oracle `rmdirFails`
telling which directory removals fail (the source logs such failures and
continues).  Falsy `relPath`: no effect.  `modify` mode: rewrite the file
with `originalContent ?? ""`.  Otherwise (`create` mode): delete the file,
then try to remove each recorded created directory in reverse creation
order.  Both branches end in `reset()`. -/
def revertChanges (st : DiffViewState) (rmdirFails : String → Bool) :
    DiffViewState × List FsAction :=
  match getTruthy st.relPath with
  | none => (st, [])
  | some rel =>
    let absolutePath := resolvePath st.cwd rel
    if st.editType = some EditType.modify then
      (resetState st, [FsAction.writeFile absolutePath (st.originalContent.getD "")])
    else
      (resetState st,
       FsAction.unlink absolutePath ::
         st.createdDirs.reverse.map (fun d => FsAction.rmdirTry d (rmdirFails d)))

/-- The directories whose removal a trace attempts, in order. -/
def attemptedRmdirs (as : List FsAction) : List String :=
  as.filterMap fun a =>
    match a with
    | FsAction.rmdirTry d _ => some d
    | _ => none

/-- A direct-write (`skipDiffView`) session fixture. -/
def directWriteSession : DiffViewState :=
  { cwd := "/w"
    editType := some EditType.modify
    isEditing := true
    originalContent := some ""
    createdDirs := []
    documentWasOpen := false
    relPath := some "f.txt"
    newContent := none
    streamedLines := []
    preDiagnostics := []
    skipDiffView := true
    hasActiveDiffEditor := false
    hasControllers := false }

/-- A session whose `newContent` is present but the empty string. -/
def emptyNewContentSession : DiffViewState :=
  { directWriteSession with relPath := some "a.txt", newContent := some "" }

/-! ## The per-path mistake counter (`consecutiveMistakeCountForApplyDiff`)

A JavaScript `Map<string, number>`: an association list with unique keys in
insertion order.  `mset` updates an existing key in place or appends;
`mdel` removes the key's entry. -/

abbrev MistakeMap := List (String × Nat)

def mget : MistakeMap → String → Option Nat
  | [], _ => none
  | (k, v) :: rest, key => if k = key then some v else mget rest key

def mset : MistakeMap → String → Nat → MistakeMap
  | [], key, v => [(key, v)]
  | (k, w) :: rest, key, v =>
    if k = key then (k, v) :: rest else (k, w) :: mset rest key v

def mdel : MistakeMap → String → MistakeMap
  | [], _ => []
  | (k, v) :: rest, key =>
    if k = key then mdel rest key else (k, v) :: mdel rest key

/-! ## The `applyDiffTool` orchestrator

The orchestrator is modelled as a pure function from the task state, the
tool-use block and the outcomes of its collaborators to a new task state
plus a trace of the calls it makes.  Collaborator behaviour (model id,
HTML-entity unescaping, access control, file existence, timeouts of the
individually guarded steps, the diff strategy's result, the approval
answer, and the fields returned by `saveChanges`) are inputs, since they
are external to the orchestrator's own control flow. -/

/-- Mutable fields of the owning `Cline` task that the orchestrator touches. -/
structure ClineState where
  cwd : String
  consecutiveMistakeCount : Nat
  mistakeMap : MistakeMap
  didEditFile : Bool
  deriving DecidableEq, Repr

/-- The parameters of the tool-use block. -/
structure ToolInput where
  isPartialChunk : Bool
  pathParam : Option String
  diffParam : Option String
  startLine : Option Nat
  deriving DecidableEq, Repr

/-- One entry of a strategy failure's `failParts` list.  `details` carries
the `JSON.stringify(details, null, 2)` rendering of the structured details,
or `none` when the field is falsy. -/
structure FailPart where
  success : Bool
  error : Option String
  details : Option String
  deriving DecidableEq, Repr

/-- The result record returned by `diffStrategy.applyDiff`. -/
structure DiffResult where
  success : Bool
  content : Option String
  error : Option String
  details : Option String
  failParts : Option (List FailPart)
  deriving DecidableEq, Repr

/-- The result synthesized when no diff strategy is configured. -/
def noStrategyResult : DiffResult :=
  { success := false, content := none, error := some "No diff strategy available",
    details := none, failParts := none }

/-- Collaborator outcomes for one orchestrator invocation. -/
structure Env where
  modelIdHasClaude : Bool
  unescape : String → String
  progressStatusEmpty : Bool
  accessAllowed : Bool
  timeoutMs : Nat
  existsTimedOut : Bool
  fileExists : Bool
  readTimedOut : Bool
  originalContent : String
  hasStrategy : Bool
  applyTimedOut : Bool
  diffResult : DiffResult
  approved : Bool
  saveTimedOut : Bool
  saveNewProblemsMessage : Option String
  saveUserEdits : Option String
  saveFinalContent : Option String
  addLineNumbers : String → String

/-- The externally visible calls the orchestrator makes, in order.
`pushMissingParamError p` stands for `pushToolResult(await
cline.sayAndCreateMissingParamError("apply_diff", p))`; `pushToolError`
for `pushToolResult(formatResponse.toolError(...))`; the `session...`
actions for the corresponding `diffViewProvider` method calls. -/
inductive OrchAction where
  | askPartial
  | recordToolErrorAct (detail : Option String)
  | pushMissingParamError (param : String)
  | sayRooIgnoreError (p : String)
  | pushRooIgnoreError (p : String)
  | accessCheck (p : String)
  | fsExistsCheck (p : String)
  | fsRead (p : String)
  | sayError (msg : String)
  | pushToolError (msg : String)
  | strategyApply (original diffSpec : String) (startLine : Option Nat)
  | telemetryCapture (count : Nat)
  | sayDiffError (msg : String)
  | pushToolResult (msg : String)
  | sessionSetModifyType
  | sessionOpen (p : String)
  | sessionUpdate (content : String) (isFinal : Bool)
  | scrollToFirstDiff
  | askApproval
  | sessionRevert
  | sessionSave
  | trackFileContext (p : String)
  | sayUserFeedbackDiff
  | sessionReset
  | handleErrorAct
  deriving DecidableEq, Repr

structure OrchResult where
  state : ClineState
  actions : List OrchAction

/-- The diff parameter after the conditional HTML-entity unescaping applied
when the parameter is truthy and the model id does not contain "claude". -/
def effectiveDiff (env : Env) (inp : ToolInput) : Option String :=
  if isTruthy inp.diffParam && !env.modelIdHasClaude then inp.diffParam.map env.unescape
  else inp.diffParam

/-- The shared missing-parameter exit: bump the task-level mistake count,
record the tool error, and push the structured missing-parameter error. -/
def missingParamResult (st : ClineState) (param : String) : OrchResult :=
  ⟨{ st with consecutiveMistakeCount := st.consecutiveMistakeCount + 1 },
   [OrchAction.recordToolErrorAct none, OrchAction.pushMissingParamError param]⟩

/-- The error text pushed when the target file does not exist. -/
def notFoundError (absolutePath : String) : String :=
  "File does not exist at path: " ++ absolutePath ++
  "\n\n<error_details>\nThe specified file could not be found. Please verify the file path and try again.\n</error_details>"

def detailsSuffix : Option String → String
  | some d => "\n\nDetails:\n" ++ d
  | none => ""

/-- The single-top-level-error form of a strategy failure message. -/
def topLevelFailureError (absolutePath : String) (r : DiffResult) : String :=
  "Unable to apply diff to file: " ++ absolutePath ++ "\n\n<error_details>\n" ++
    r.error.getD "undefined" ++ detailsSuffix r.details ++ "\n</error_details>"

/-- The failure message built by the orchestrator: when `failParts` is
present and non-empty, the loop keeps the block of the last failed part
(skipping successful parts, starting from the empty string); otherwise the
single top-level error form is used. -/
def formatFailureError (absolutePath : String) (r : DiffResult) : String :=
  match r.failParts with
  | some parts =>
    if parts.length > 0 then
      parts.foldl
        (fun acc p =>
          if p.success then acc
          else
            "<error_details>\n" ++ p.error.getD "undefined" ++
              detailsSuffix p.details ++ "\n</error_details>")
        ""
    else topLevelFailureError absolutePath r
  | none => topLevelFailureError absolutePath r

/-- The timeout message for a guarded phase, naming the operation. -/
def timeoutPhaseMsg (phase relPath : String) (timeoutMs : Nat) (tail : String) : String :=
  "Operation timed out when " ++ phase ++ " \x27" ++ relPath ++
    "\x27. " ++ tail ++ toString (timeoutMs / 1000) ++ " seconds."

/-- The hint appended when some hunks failed while the overall apply
succeeded. -/
def partFailHintOf (absolutePath : String) (r : DiffResult) : String :=
  match r.failParts with
  | some ps =>
    if ps.length > 0 then
      "But unable to apply all diff parts to file: " ++ absolutePath ++
        ", silently use <read_file> tool to check newest file version and re-apply diffs\n"
    else ""
  | none => ""

/-- `applyDiffTool`: one orchestrator invocation, from parameter validation
through access, existence and read checks, the strategy application, the
failure/success branch with the per-path mistake counter, approval, save
and the final tool result. -/
def applyDiffTool (st : ClineState) (inp : ToolInput) (env : Env) : OrchResult :=
  let diffContent := effectiveDiff env inp
  if inp.isPartialChunk then
    if env.hasStrategy && env.progressStatusEmpty then ⟨st, []⟩
    else ⟨st, [OrchAction.askPartial]⟩
  else
    match getTruthy inp.pathParam with
    | none => missingParamResult st "path"
    | some relPath =>
      match getTruthy diffContent with
      | none => missingParamResult st "diff"
      | some diffStr =>
        if !env.accessAllowed then
          ⟨st, [OrchAction.accessCheck relPath, OrchAction.sayRooIgnoreError relPath,
                OrchAction.pushRooIgnoreError relPath]⟩
        else
          let absolutePath := resolvePath st.cwd relPath
          let pre0 := [OrchAction.accessCheck relPath, OrchAction.fsExistsCheck absolutePath]
          if env.existsTimedOut then
            let msg := timeoutPhaseMsg "checking if file exists at" relPath env.timeoutMs
              "The operation is taking longer than "
            ⟨st, pre0 ++ [OrchAction.sayError msg, OrchAction.pushToolError msg]⟩
          else if !env.fileExists then
            let msg := notFoundError absolutePath
            ⟨{ st with consecutiveMistakeCount := st.consecutiveMistakeCount + 1 },
             pre0 ++ [OrchAction.recordToolErrorAct none, OrchAction.sayError msg,
                      OrchAction.pushToolResult msg]⟩
          else
            let pre1 := pre0 ++ [OrchAction.fsRead absolutePath]
            if env.readTimedOut then
              let msg := timeoutPhaseMsg "reading file" relPath env.timeoutMs
                "The file might be too large or the operation is taking longer than "
              ⟨st, pre1 ++ [OrchAction.sayError msg, OrchAction.pushToolError msg]⟩
            else if env.hasStrategy && env.applyTimedOut then
              let pre2 := pre1 ++
                [OrchAction.strategyApply env.originalContent diffStr inp.startLine]
              let msg := timeoutPhaseMsg "applying diff to file" relPath env.timeoutMs
                "The operation is taking longer than "
              ⟨st, pre2 ++ [OrchAction.sayError msg, OrchAction.pushToolError msg]⟩
            else
              let diffResult := if env.hasStrategy then env.diffResult else noStrategyResult
              let pre2 := if env.hasStrategy then
                  pre1 ++ [OrchAction.strategyApply env.originalContent diffStr inp.startLine]
                else pre1
              if !diffResult.success then
                let currentCount := (mget st.mistakeMap relPath).getD 0 + 1
                let st1 := { st with
                  consecutiveMistakeCount := st.consecutiveMistakeCount + 1
                  mistakeMap := mset st.mistakeMap relPath currentCount }
                let fe := formatFailureError absolutePath diffResult
                ⟨st1, pre2 ++ [OrchAction.telemetryCapture currentCount] ++
                  (if currentCount ≥ 2 then [OrchAction.sayDiffError fe] else []) ++
                  [OrchAction.recordToolErrorAct (some fe), OrchAction.pushToolResult fe]⟩
              else
                let st1 := { st with
                  consecutiveMistakeCount := 0
                  mistakeMap := mdel st.mistakeMap relPath }
                match getTruthy diffResult.content with
                | none =>
                  let msg := "Unexpected state: diffResult.success is true but content is missing"
                  ⟨st1, pre2 ++ [OrchAction.sayError msg, OrchAction.pushToolError msg]⟩
                | some newFileContent =>
                  let pre3 := pre2 ++
                    [OrchAction.sessionSetModifyType, OrchAction.sessionOpen relPath,
                     OrchAction.sessionUpdate newFileContent true,
                     OrchAction.scrollToFirstDiff, OrchAction.askApproval]
                  if !env.approved then ⟨st1, pre3 ++ [OrchAction.sessionRevert]⟩
                  else if env.saveTimedOut then
                    ⟨st1, pre3 ++ [OrchAction.sessionSave, OrchAction.handleErrorAct,
                                   OrchAction.sessionReset]⟩
                  else
                    let st2 := { st1 with didEditFile := true }
                    let pre4 := pre3 ++ [OrchAction.sessionSave,
                                         OrchAction.trackFileContext relPath]
                    let partFailHint := partFailHintOf absolutePath diffResult
                    match getTruthy env.saveUserEdits with
                    | some userEdits =>
                      let msg :=
                        "The user made the following updates to your content:\n\n" ++
                        userEdits ++ "\n\n" ++ partFailHint ++
                        "The updated content, which includes both your original modifications and the user\x27s edits, has been successfully saved to " ++
                        relPath ++
                        ". Here is the full, updated content of the file, including line numbers:\n\n<final_file_content path=\"" ++
                        relPath ++ "\">\n" ++
                        env.addLineNumbers (env.saveFinalContent.getD "") ++
                        "\n</final_file_content>\n\nPlease note:\n1. You do not need to re-write the file with these changes, as they have already been applied.\n2. Proceed with the task using this updated file content as the new baseline.\n3. If the user\x27s edits have addressed part of the task or changed the requirements, adjust your approach accordingly." ++
                        env.saveNewProblemsMessage.getD "undefined"
                      ⟨st2, pre4 ++ [OrchAction.sayUserFeedbackDiff,
                                     OrchAction.pushToolResult msg,
                                     OrchAction.sessionReset]⟩
                    | none =>
                      let msg := "Changes successfully applied to " ++ relPath ++ ":\n\n" ++
                        env.saveNewProblemsMessage.getD "undefined" ++ "\n" ++ partFailHint
                      ⟨st2, pre4 ++ [OrchAction.pushToolResult msg,
                                     OrchAction.sessionReset]⟩

/-- Actions that leave the task and touch the access checker, the file
system, or the edit session. -/
def touchesFsOrSession : OrchAction → Bool
  | OrchAction.accessCheck _ => true
  | OrchAction.fsExistsCheck _ => true
  | OrchAction.fsRead _ => true
  | OrchAction.strategyApply _ _ _ => true
  | OrchAction.sessionSetModifyType => true
  | OrchAction.sessionOpen _ => true
  | OrchAction.sessionUpdate _ _ => true
  | OrchAction.scrollToFirstDiff => true
  | OrchAction.sessionRevert => true
  | OrchAction.sessionSave => true
  | OrchAction.sessionReset => true
  | _ => false

/-- Actions that read or write a file (directly or through the session). -/
def isFileReadWrite : OrchAction → Bool
  | OrchAction.fsRead _ => true
  | OrchAction.sessionOpen _ => true
  | OrchAction.sessionUpdate _ _ => true
  | OrchAction.sessionRevert => true
  | OrchAction.sessionSave => true
  | _ => false

/-- Human-visible channel: the `cline.say` family. -/
def isHumanSay : OrchAction → Bool
  | OrchAction.sayError _ => true
  | OrchAction.sayDiffError _ => true
  | OrchAction.sayRooIgnoreError _ => true
  | OrchAction.sayUserFeedbackDiff => true
  | _ => false

/-- Hypotheses stating that an invocation reaches the strategy-apply stage:
a complete block, truthy parameters, access allowed, an existing file, and
no timeout on the guarded existence, read or apply phases. -/
def ReachesApplyStage (inp : ToolInput) (env : Env) (rel d : String) : Prop :=
  inp.isPartialChunk = false ∧
  getTruthy inp.pathParam = some rel ∧
  getTruthy (effectiveDiff env inp) = some d ∧
  env.accessAllowed = true ∧
  env.existsTimedOut = false ∧
  env.fileExists = true ∧
  env.readTimedOut = false ∧
  env.hasStrategy = true ∧
  env.applyTimedOut = false

/-! ### Concrete fixtures for the orchestrator -/

def failedDiffResult : DiffResult :=
  { success := false, content := none, error := some "bad diff", details := none,
    failParts := none }

def okDiffResult : DiffResult :=
  { success := true, content := some "new content", error := none, details := none,
    failParts := none }

/-- A collaborator environment in which every guard passes and the strategy
fails. -/
def envFailW : Env :=
  { modelIdHasClaude := true
    unescape := id
    progressStatusEmpty := false
    accessAllowed := true
    timeoutMs := 30000
    existsTimedOut := false
    fileExists := true
    readTimedOut := false
    originalContent := "line1\n"
    hasStrategy := true
    applyTimedOut := false
    diffResult := failedDiffResult
    approved := true
    saveTimedOut := false
    saveNewProblemsMessage := some ""
    saveUserEdits := none
    saveFinalContent := some "new content"
    addLineNumbers := id }

/-- The same environment with a successful strategy result. -/
def envOkW : Env := { envFailW with diffResult := okDiffResult }

/-- The same environment reporting a missing file. -/
def envNotFoundW : Env := { envFailW with fileExists := false }

def inpW : ToolInput :=
  { isPartialChunk := false, pathParam := some "x.py", diffParam := some "d",
    startLine := none }

def inpNoPathW : ToolInput := { inpW with pathParam := none }

def inpNoDiffW : ToolInput := { inpW with diffParam := none }

def stW : ClineState :=
  { cwd := "/w", consecutiveMistakeCount := 3, mistakeMap := [], didEditFile := false }

/-- A task state in which `"x.py"` already has one recorded failure. -/
def stOneFailW : ClineState := { stW with mistakeMap := [("x.py", 1)] }

/-! ## The timeout guard (`promiseTimeout`)

A promise is modelled by the time (in milliseconds) at which it settles and
its outcome — a value or a rejection reason.  `promiseTimeout` races the
promise against a `setTimeout(timeoutMs)` rejection: the promise wins when
it settles within the budget (a settlement in the same millisecond as the
timer is delivered first, since promise reactions run before timer
callbacks).  The trace records the timer being started and — in the
`finally` block — cleared; the guard never emits a cancellation of the
underlying operation, whose own settlement is unaffected. -/

structure JsPromise (α : Type) where
  settleTime : Nat
  outcome : Except String α

inductive RaceAction where
  | startTimer (ms : Nat)
  | clearTimer
  | cancelOperation
  deriving DecidableEq, Repr

/-- `promiseTimeout(promise, timeoutMs, errorMessage)`: the raced result and
the trace of timer operations. -/
def promiseTimeout {α : Type} (promise : JsPromise α) (timeoutMs : Nat)
    (errorMessage : String) : Except String α × List RaceAction :=
  (if promise.settleTime ≤ timeoutMs then promise.outcome
   else Except.error errorMessage,
   [RaceAction.startTimer timeoutMs, RaceAction.clearTimer])

end RooEdit

namespace RooEdit

/-! ## Lemmas about BOM stripping -/

theorem stripBom_length_lt {s : List Char} (h : stripBom s ≠ s) :
    (stripBom s).length < s.length := by
  cases s with
  | nil => simp [stripBom] at h
  | cons c rest =>
    by_cases hc : c = bomChar
    · simp [stripBom, hc]
    · simp [stripBom, hc] at h

theorem stripLoop_fix : ∀ (n : Nat) (s : List Char), s.length ≤ n →
    stripBom (stripLoop n s) = stripLoop n s := by
  intro n
  induction n with
  | zero =>
    intro s hs
    have : s = [] := List.length_eq_zero.mp (Nat.le_zero.mp hs)
    subst this
    simp [stripLoop, stripBom]
  | succ n ih =>
    intro s hs
    by_cases h : stripBom s = s
    · simp [stripLoop, h]
    · have hlt : (stripBom s).length < s.length := stripBom_length_lt h
      have hle : (stripBom s).length ≤ n := by omega
      simp only [stripLoop, h, if_neg h]
      exact ih (stripBom s) hle

theorem stripLoop_of_fix {s : List Char} (h : stripBom s = s) :
    ∀ n, stripLoop n s = s := by
  intro n
  cases n with
  | zero => rfl
  | succ n => simp [stripLoop, h]

/-- The result of `stripAllBOMs` is a fixed point of a single `stripBom` pass. -/
theorem stripAllBOMs_fix (s : List Char) :
    stripBom (stripAllBOMs s) = stripAllBOMs s :=
  stripLoop_fix s.length s (Nat.le_refl _)

/-- `stripAllBOMs` is idempotent on character lists. -/
theorem stripAllBOMs_idem (s : List Char) :
    stripAllBOMs (stripAllBOMs s) = stripAllBOMs s := by
  have hfix := stripAllBOMs_fix s
  unfold stripAllBOMs
  exact stripLoop_of_fix hfix _

/-- Claim C4: byte-order-mark normalization is idempotent — stripping a second
time changes nothing, for every input including ones with several stacked
marks — and the result of `stripAllBOMs` is a fixed point of a single
`stripBom` pass. -/
theorem stripAllBOMs_idempotent_and_fixpoint (x : String) :
    stripAllBOMsStr (stripAllBOMsStr x) = stripAllBOMsStr x ∧
    stripBomStr (stripAllBOMsStr x) = stripAllBOMsStr x := by
  constructor
  · show String.mk (stripAllBOMs (String.mk (stripAllBOMs x.data)).data)
        = String.mk (stripAllBOMs x.data)
    exact congrArg String.mk (stripAllBOMs_idem x.data)
  · show String.mk (stripBom (String.mk (stripAllBOMs x.data)).data)
        = String.mk (stripAllBOMs x.data)
    exact congrArg String.mk (stripAllBOMs_fix x.data)

/-! ## Helper lemmas on truthiness and traces -/

theorem getTruthy_eq_some {o : Option String} {s : String}
    (h : getTruthy o = some s) : o = some s := by
  cases o with
  | none => simp [getTruthy] at h
  | some t =>
    by_cases ht : t.isEmpty
    · simp [getTruthy, ht] at h
    · simp [getTruthy, ht] at h
      simp [h]

theorem attemptedRmdirs_unlink_map (p : String) (l : List String)
    (f : String → Bool) :
    attemptedRmdirs
      (FsAction.unlink p :: l.map (fun d => FsAction.rmdirTry d (f d))) = l := by
  induction l with
  | nil => rfl
  | cons d ds ih =>
    simpa [attemptedRmdirs, List.filterMap_cons] using ih

/-! ## Claim C1 (corrected) — direct-write update -/

/-- Claim C1, counterexample: in direct-write (`skipDiffView`) mode, a
non-final `update("ab\ncd", false)` writes the full content `"ab\ncd"` to
disk, not the claimed truncation `"ab"` that drops the last (possibly
incomplete) line. -/
theorem directWrite_nonFinal_not_truncated :
    updateActions directWriteSession "ab\ncd" false
        = [FsAction.writeFile (resolvePath "/w" "f.txt") "ab\ncd"] ∧
    specTruncateDropLastLine "ab\ncd" = "ab" ∧
    ("ab\ncd" : String) ≠ specTruncateDropLastLine "ab\ncd" := by
  refine ⟨by decide, by decide, by decide⟩

/-- Claim C1 as amended: in direct-write (`skipDiffView`) mode, every
`update` call — final or not — writes the byte-order-mark-stripped content
in full to disk; no last-line truncation is applied on the direct-write
path. -/
theorem directWrite_update_writes_full_content
    (st : DiffViewState) (content : String) (isFinal : Bool) (rel : String)
    (hskip : st.skipDiffView = true)
    (hrel : getTruthy st.relPath = some rel) :
    updateActions st content isFinal
      = [FsAction.writeFile (resolvePath st.cwd rel) (stripAllBOMsStr content)] := by
  simp [updateActions, update, hrel, hskip]

theorem directWrite_update_writes_full_content_witness :
    updateActions directWriteSession "x\ny" false
        = [FsAction.writeFile (resolvePath "/w" "f.txt") (stripAllBOMsStr "x\ny")] ∧
    updateActions directWriteSession "x\ny" true
        = [FsAction.writeFile (resolvePath "/w" "f.txt") (stripAllBOMsStr "x\ny")] :=
  ⟨directWrite_update_writes_full_content directWriteSession "x\ny" false "f.txt"
      (by decide) (by decide),
   directWrite_update_writes_full_content directWriteSession "x\ny" true "f.txt"
      (by decide) (by decide)⟩

/-! ## Claim C5 — reverting a create-mode session -/

/-- Claim C5: reverting a `create`-mode session deletes the created file and
then attempts removal of exactly the recorded created directories, in strict
reverse order of creation; a failed removal (per the `rmdirFails` oracle) is
recorded but neither skips the remaining removals nor prevents the revert
from resetting the session. -/
theorem revert_create_removes_dirs_in_reverse
    (st : DiffViewState) (rel : String) (rmdirFails : String → Bool)
    (hrel : getTruthy st.relPath = some rel)
    (hty : st.editType = some EditType.create) :
    (revertChanges st rmdirFails).2
      = FsAction.unlink (resolvePath st.cwd rel) ::
          st.createdDirs.reverse.map (fun d => FsAction.rmdirTry d (rmdirFails d)) ∧
    attemptedRmdirs (revertChanges st rmdirFails).2 = st.createdDirs.reverse ∧
    (∀ d, d ∈ attemptedRmdirs (revertChanges st rmdirFails).2 → d ∈ st.createdDirs) ∧
    (revertChanges st rmdirFails).1 = resetState st := by
  have htr : (revertChanges st rmdirFails).2
      = FsAction.unlink (resolvePath st.cwd rel) ::
          st.createdDirs.reverse.map (fun d => FsAction.rmdirTry d (rmdirFails d)) := by
    simp [revertChanges, hrel, hty]
  have hat : attemptedRmdirs (revertChanges st rmdirFails).2 = st.createdDirs.reverse := by
    rw [htr]
    exact attemptedRmdirs_unlink_map _ _ _
  refine ⟨htr, hat, ?_, ?_⟩
  · intro d hd
    rw [hat] at hd
    exact List.mem_reverse.mp hd
  · simp [revertChanges, hrel, hty]

/-- A create-mode session fixture with two recorded created directories. -/
def createModeSession : DiffViewState :=
  { directWriteSession with
    editType := some EditType.create
    relPath := some "a/b/f.txt"
    createdDirs := ["/w/a", "/w/a/b"] }

theorem revert_create_removes_dirs_in_reverse_witness :
    (revertChanges createModeSession (fun d => d = "/w/a/b")).2
      = [FsAction.unlink (resolvePath "/w" "a/b/f.txt"),
         FsAction.rmdirTry "/w/a/b" true,
         FsAction.rmdirTry "/w/a" false] ∧
    attemptedRmdirs (revertChanges createModeSession (fun d => d = "/w/a/b")).2
      = ["/w/a/b", "/w/a"] ∧
    (revertChanges createModeSession (fun d => d = "/w/a/b")).1
      = resetState createModeSession := by
  have h := revert_create_removes_dirs_in_reverse createModeSession "a/b/f.txt"
    (fun d => d = "/w/a/b") (by decide) (by decide)
  refine ⟨?_, ?_, h.2.2.2⟩
  · rw [h.1]; decide
  · rw [h.2.1]; decide

/-! ## Claim C6 — reverting a modify-mode session -/

/-- Claim C6: reverting a `modify`-mode session writes back exactly the
`originalContent` snapshot captured at open — byte for byte, with no
byte-order-mark normalization applied — and then resets the session. -/
theorem revert_modify_restores_original
    (st : DiffViewState) (rel orig : String) (rmdirFails : String → Bool)
    (hrel : getTruthy st.relPath = some rel)
    (hty : st.editType = some EditType.modify)
    (horig : st.originalContent = some orig) :
    (revertChanges st rmdirFails).2
      = [FsAction.writeFile (resolvePath st.cwd rel) orig] ∧
    (revertChanges st rmdirFails).1 = resetState st := by
  simp [revertChanges, hrel, hty, horig]

/-- A modify-mode session whose snapshot starts with a byte-order mark, to
show the revert write is verbatim. -/
def modifySessionWithBom : DiffViewState :=
  { directWriteSession with
    editType := some EditType.modify
    originalContent := some "﻿hello" }

theorem revert_modify_restores_original_witness :
    (revertChanges modifySessionWithBom (fun _ => false)).2
      = [FsAction.writeFile (resolvePath "/w" "f.txt") "﻿hello"] ∧
    (revertChanges modifySessionWithBom (fun _ => false)).1
      = resetState modifySessionWithBom :=
  revert_modify_restores_original modifySessionWithBom "f.txt" "﻿hello"
    (fun _ => false) (by decide) (by decide) (by decide)

/-! ## Claim C10 (corrected) — saveChanges -/

/-- Claim C10, counterexample: a session whose `newContent` is present (set)
but equal to the empty string has both `relPath` and `newContent` set, yet
`saveChanges` performs no disk write and returns `finalContent` as
`undefined` rather than the set `newContent`. -/
theorem saveChanges_empty_newContent_counterexample :
    emptyNewContentSession.relPath.isSome = true ∧
    emptyNewContentSession.newContent.isSome = true ∧
    (saveChanges emptyNewContentSession "").2 = [] ∧
    (saveChanges emptyNewContentSession "").1.finalContent = none ∧
    (saveChanges emptyNewContentSession "").1.finalContent
      ≠ emptyNewContentSession.newContent := by
  refine ⟨by decide, by decide, by decide, by decide, by decide⟩

/-- Claim C10 as amended: when `relPath` and `newContent` are set to
non-empty strings, `saveChanges` writes the byte-order-mark-stripped form of
`newContent` to disk but returns the unstripped `newContent` as
`finalContent`; when either is unset or empty, it performs no disk write and
returns all three result fields as `undefined`; and there are inputs
(`newContent` beginning with a byte-order mark) on which the returned
`finalContent` differs from the bytes persisted on disk. -/
theorem saveChanges_write_and_result :
    (∀ (st : DiffViewState) (np rel nc : String),
      getTruthy st.relPath = some rel → getTruthy st.newContent = some nc →
      (saveChanges st np).2
          = [FsAction.writeFile (resolvePath st.cwd rel) (stripAllBOMsStr nc)] ∧
      (saveChanges st np).1.finalContent = some nc ∧
      st.newContent = some nc) ∧
    (∀ (st : DiffViewState) (np : String),
      getTruthy st.relPath = none ∨ getTruthy st.newContent = none →
      (saveChanges st np).2 = [] ∧
      (saveChanges st np).1 = ⟨none, none, none⟩) ∧
    (∃ (st : DiffViewState) (np written : String),
      (saveChanges st np).2
          = [FsAction.writeFile (resolvePath st.cwd (st.relPath.getD "")) written] ∧
      (saveChanges st np).1.finalContent = st.newContent ∧
      some written ≠ st.newContent) := by
  refine ⟨?_, ?_, ?_⟩
  · intro st np rel nc hrel hnc
    have hnc' : st.newContent = some nc := getTruthy_eq_some hnc
    rw [hnc'] at hnc
    refine ⟨?_, ?_, hnc'⟩ <;> simp [saveChanges, hrel, hnc', hnc]
  · intro st np h
    rcases h with h | h
    · constructor <;> simp [saveChanges, h]
    · cases hrel : getTruthy st.relPath <;> constructor <;> simp [saveChanges, hrel, h]
  · refine ⟨{ directWriteSession with newContent := some "﻿x" }, "", "x", ?_, ?_, ?_⟩
      <;> decide

theorem saveChanges_write_and_result_witness :
    (saveChanges { directWriteSession with newContent := some "﻿x" } "").2
        = [FsAction.writeFile (resolvePath "/w" "f.txt") (stripAllBOMsStr "﻿x")] ∧
    (saveChanges { directWriteSession with newContent := some "﻿x" } "").1.finalContent
        = some "﻿x" ∧
    (saveChanges directWriteSession "").2 = [] ∧
    (saveChanges directWriteSession "").1 = ⟨none, none, none⟩ := by
  have h1 := saveChanges_write_and_result.1
    { directWriteSession with newContent := some "﻿x" } "" "f.txt" "﻿x"
    (by decide) (by decide)
  have h2 := saveChanges_write_and_result.2.1 directWriteSession ""
    (Or.inr (by decide))
  exact ⟨h1.1, h1.2.1, h2.1, h2.2⟩

/-! ## Lemmas about the mistake-counter map -/

theorem mget_mset_self (m : MistakeMap) (k : String) (v : Nat) :
    mget (mset m k v) k = some v := by
  induction m with
  | nil => simp [mset, mget]
  | cons p rest ih =>
    obtain ⟨k1, w⟩ := p
    by_cases h : k1 = k
    · simp [mset, mget, h]
    · simp [mset, mget, h, ih]

theorem mget_mdel_self (m : MistakeMap) (k : String) :
    mget (mdel m k) k = none := by
  induction m with
  | nil => simp [mdel, mget]
  | cons p rest ih =>
    obtain ⟨k1, w⟩ := p
    by_cases h : k1 = k
    · simp [mdel, h, ih]
    · simp [mdel, mget, h, ih]

/-! ## Claim C2 — mistake-counter increment and clear -/

/-- Claim C2: when an orchestrator invocation reaches the strategy-apply
stage for path `rel`, a failed apply sets the path's mistake-counter entry
to exactly its previous looked-up count plus one (so consecutive failures
strictly increase it), and a successful apply removes the entry, so its
looked-up count resets to zero. -/
theorem mistake_counter_per_path
    (st : ClineState) (inp : ToolInput) (env : Env) (rel d : String)
    (h : ReachesApplyStage inp env rel d) :
    (env.diffResult.success = false →
      mget (applyDiffTool st inp env).state.mistakeMap rel
          = some ((mget st.mistakeMap rel).getD 0 + 1) ∧
      (mget st.mistakeMap rel).getD 0
          < (mget (applyDiffTool st inp env).state.mistakeMap rel).getD 0) ∧
    (env.diffResult.success = true →
      mget (applyDiffTool st inp env).state.mistakeMap rel = none ∧
      (mget (applyDiffTool st inp env).state.mistakeMap rel).getD 0 = 0) := by
  obtain ⟨h1, h2, h3, h4, h5, h6, h7, h8, h9⟩ := h
  constructor
  · intro hf
    have hmap : (applyDiffTool st inp env).state.mistakeMap
        = mset st.mistakeMap rel ((mget st.mistakeMap rel).getD 0 + 1) := by
      simp [applyDiffTool, h1, h2, h3, h4, h5, h6, h7, h8, h9, hf]
    rw [hmap, mget_mset_self]
    simp
  · intro hs
    have hmap : (applyDiffTool st inp env).state.mistakeMap
        = mdel st.mistakeMap rel := by
      cases hc : getTruthy env.diffResult.content with
      | none => simp [applyDiffTool, h1, h2, h3, h4, h5, h6, h7, h8, h9, hs, hc]
      | some c =>
        cases hap : env.approved <;> cases hst : env.saveTimedOut <;>
          cases hue : getTruthy env.saveUserEdits <;>
          simp [applyDiffTool, h1, h2, h3, h4, h5, h6, h7, h8, h9, hs, hc, hap, hst, hue]
    rw [hmap, mget_mdel_self]
    simp

theorem mistake_counter_per_path_witness :
    mget (applyDiffTool stW inpW envFailW).state.mistakeMap "x.py" = some 1 ∧
    mget (applyDiffTool stOneFailW inpW envFailW).state.mistakeMap "x.py" = some 2 ∧
    mget (applyDiffTool stOneFailW inpW envOkW).state.mistakeMap "x.py" = none := by
  have hreF : ReachesApplyStage inpW envFailW "x.py" "d" :=
    ⟨by decide, by decide, by decide, by decide, by decide, by decide, by decide,
     by decide, by decide⟩
  have hreO : ReachesApplyStage inpW envOkW "x.py" "d" :=
    ⟨by decide, by decide, by decide, by decide, by decide, by decide, by decide,
     by decide, by decide⟩
  refine ⟨?_, ?_, ?_⟩
  · have h := (mistake_counter_per_path stW inpW envFailW "x.py" "d" hreF).1 rfl
    simpa using h.1
  · have h := (mistake_counter_per_path stOneFailW inpW envFailW "x.py" "d" hreF).1 rfl
    simpa using h.1
  · exact ((mistake_counter_per_path stOneFailW inpW envOkW "x.py" "d" hreO).2 rfl).1

/-! ## Claim C3 — escalation of repeated failures -/

/-- Claim C3: on a strategy failure, the formatted error is pushed as the
tool result; the human-visible `say` channel carries nothing when the
resulting consecutive-failure count for the path is 1, and carries exactly
the same error as a `diff_error` message when the resulting count is at
least 2. -/
theorem failure_escalation
    (st : ClineState) (inp : ToolInput) (env : Env) (rel d : String)
    (h : ReachesApplyStage inp env rel d)
    (hfail : env.diffResult.success = false) :
    OrchAction.pushToolResult
        (formatFailureError (resolvePath st.cwd rel) env.diffResult)
      ∈ (applyDiffTool st inp env).actions ∧
    (applyDiffTool st inp env).actions.filter isHumanSay
      = (if (mget st.mistakeMap rel).getD 0 + 1 ≥ 2
         then [OrchAction.sayDiffError
                 (formatFailureError (resolvePath st.cwd rel) env.diffResult)]
         else []) := by
  obtain ⟨h1, h2, h3, h4, h5, h6, h7, h8, h9⟩ := h
  constructor
  · by_cases h2c : (mget st.mistakeMap rel).getD 0 + 1 ≥ 2 <;>
      simp [applyDiffTool, h1, h2, h3, h4, h5, h6, h7, h8, h9, hfail, h2c]
  · by_cases h2c : (mget st.mistakeMap rel).getD 0 + 1 ≥ 2 <;>
      simp [applyDiffTool, h1, h2, h3, h4, h5, h6, h7, h8, h9, hfail, h2c, isHumanSay]

theorem failure_escalation_witness :
    OrchAction.pushToolResult
        (formatFailureError (resolvePath "/w" "x.py") failedDiffResult)
      ∈ (applyDiffTool stW inpW envFailW).actions ∧
    (applyDiffTool stW inpW envFailW).actions.filter isHumanSay = [] ∧
    (applyDiffTool stOneFailW inpW envFailW).actions.filter isHumanSay
      = [OrchAction.sayDiffError
           (formatFailureError (resolvePath "/w" "x.py") failedDiffResult)] := by
  have hre : ReachesApplyStage inpW envFailW "x.py" "d" :=
    ⟨by decide, by decide, by decide, by decide, by decide, by decide, by decide,
     by decide, by decide⟩
  have ha := failure_escalation stW inpW envFailW "x.py" "d" hre rfl
  have hb := failure_escalation stOneFailW inpW envFailW "x.py" "d" hre rfl
  refine ⟨ha.1, ?_, ?_⟩
  · simpa [stW, mget] using ha.2
  · simpa [stOneFailW, stW, mget] using hb.2

/-! ## Claim C8 — missing parameters are a pure, early exit -/

/-- Claim C8: when `path` is missing (or falsy), or `path` is present but
`diff` is missing (or falsy), the invocation produces only the structured
missing-parameter error as the tool result, increments the task-level
mistake count by one, leaves the per-path mistake-counter map unchanged,
and performs no access check, existence check, read, write, or edit-session
call. -/
theorem missing_param_early_exit
    (st : ClineState) (inp : ToolInput) (env : Env)
    (hp : inp.isPartialChunk = false) :
    (getTruthy inp.pathParam = none →
      (applyDiffTool st inp env).actions
          = [OrchAction.recordToolErrorAct none,
             OrchAction.pushMissingParamError "path"] ∧
      (applyDiffTool st inp env).state.consecutiveMistakeCount
          = st.consecutiveMistakeCount + 1 ∧
      (applyDiffTool st inp env).state.mistakeMap = st.mistakeMap ∧
      (applyDiffTool st inp env).actions.filter touchesFsOrSession = []) ∧
    (∀ rel, getTruthy inp.pathParam = some rel →
      getTruthy (effectiveDiff env inp) = none →
      (applyDiffTool st inp env).actions
          = [OrchAction.recordToolErrorAct none,
             OrchAction.pushMissingParamError "diff"] ∧
      (applyDiffTool st inp env).state.consecutiveMistakeCount
          = st.consecutiveMistakeCount + 1 ∧
      (applyDiffTool st inp env).state.mistakeMap = st.mistakeMap ∧
      (applyDiffTool st inp env).actions.filter touchesFsOrSession = []) := by
  constructor
  · intro hpath
    refine ⟨?_, ?_, ?_, ?_⟩ <;>
      simp [applyDiffTool, hp, hpath, missingParamResult, touchesFsOrSession]
  · intro rel hpath hdiff
    refine ⟨?_, ?_, ?_, ?_⟩ <;>
      simp [applyDiffTool, hp, hpath, hdiff, missingParamResult, touchesFsOrSession]

theorem missing_param_early_exit_witness :
    (applyDiffTool stW inpNoPathW envFailW).actions
        = [OrchAction.recordToolErrorAct none,
           OrchAction.pushMissingParamError "path"] ∧
    (applyDiffTool stW inpNoPathW envFailW).state.consecutiveMistakeCount = 4 ∧
    (applyDiffTool stW inpNoDiffW envFailW).actions
        = [OrchAction.recordToolErrorAct none,
           OrchAction.pushMissingParamError "diff"] ∧
    (applyDiffTool stW inpNoDiffW envFailW).state.mistakeMap = [] := by
  have ha := (missing_param_early_exit stW inpNoPathW envFailW rfl).1 (by decide)
  have hb := (missing_param_early_exit stW inpNoDiffW envFailW rfl).2 "x.py"
    (by decide) (by decide)
  exact ⟨ha.1, ha.2.1, hb.1, hb.2.2.1⟩

/-! ## Claim C9 — missing-file error text and early stop -/

/-- Claim C9: when the existence check reports the file absent, the
invocation pushes exactly the documented "File does not exist" message
(with the resolved absolute path interpolated) after surfacing it as an
error, performs no file read or write, increments the task-level mistake
count, and leaves the per-path mistake-counter map unchanged. -/
theorem file_not_found_exact_error
    (st : ClineState) (inp : ToolInput) (env : Env) (rel d : String)
    (hp : inp.isPartialChunk = false)
    (hrel : getTruthy inp.pathParam = some rel)
    (hdiff : getTruthy (effectiveDiff env inp) = some d)
    (hacc : env.accessAllowed = true)
    (het : env.existsTimedOut = false)
    (hex : env.fileExists = false) :
    (applyDiffTool st inp env).actions
        = [OrchAction.accessCheck rel,
           OrchAction.fsExistsCheck (resolvePath st.cwd rel),
           OrchAction.recordToolErrorAct none,
           OrchAction.sayError ("File does not exist at path: " ++
             resolvePath st.cwd rel ++
             "\n\n<error_details>\nThe specified file could not be found. Please verify the file path and try again.\n</error_details>"),
           OrchAction.pushToolResult ("File does not exist at path: " ++
             resolvePath st.cwd rel ++
             "\n\n<error_details>\nThe specified file could not be found. Please verify the file path and try again.\n</error_details>")] ∧
    (applyDiffTool st inp env).actions.filter isFileReadWrite = [] ∧
    (applyDiffTool st inp env).state.consecutiveMistakeCount
        = st.consecutiveMistakeCount + 1 ∧
    (applyDiffTool st inp env).state.mistakeMap = st.mistakeMap := by
  refine ⟨?_, ?_, ?_, ?_⟩ <;>
    simp [applyDiffTool, hp, hrel, hdiff, hacc, het, hex, notFoundError,
      isFileReadWrite]

theorem file_not_found_exact_error_witness :
    (applyDiffTool stW inpW envNotFoundW).actions
        = [OrchAction.accessCheck "x.py",
           OrchAction.fsExistsCheck "/w/x.py",
           OrchAction.recordToolErrorAct none,
           OrchAction.sayError
             "File does not exist at path: /w/x.py\n\n<error_details>\nThe specified file could not be found. Please verify the file path and try again.\n</error_details>",
           OrchAction.pushToolResult
             "File does not exist at path: /w/x.py\n\n<error_details>\nThe specified file could not be found. Please verify the file path and try again.\n</error_details>"] ∧
    (applyDiffTool stW inpW envNotFoundW).actions.filter isFileReadWrite = [] ∧
    (applyDiffTool stW inpW envNotFoundW).state.consecutiveMistakeCount = 4 := by
  have h := file_not_found_exact_error stW inpW envNotFoundW "x.py" "d"
    rfl (by decide) (by decide) rfl rfl rfl
  refine ⟨?_, h.2.1, by simpa using h.2.2.1⟩
  rw [h.1]
  decide

/-! ## Claim C7 — the timeout guard -/

/-- Claim C7: `promiseTimeout(p, t, m)` rejects with an error carrying
message `m` when `p` has not settled within `t` milliseconds; when `p`
settles in time it returns `p`'s value or propagates `p`'s rejection
unchanged; and the guard never cancels the losing operation — it only
starts and clears its own timer. -/
theorem promiseTimeout_guard {α : Type} (p : JsPromise α) (t : Nat) (m : String) :
    (t < p.settleTime → (promiseTimeout p t m).1 = Except.error m) ∧
    (p.settleTime ≤ t → (promiseTimeout p t m).1 = p.outcome) ∧
    RaceAction.cancelOperation ∉ (promiseTimeout p t m).2 := by
  refine ⟨?_, ?_, ?_⟩
  · intro h
    simp [promiseTimeout, Nat.not_le.mpr h]
  · intro h
    simp [promiseTimeout, h]
  · simp [promiseTimeout]

theorem promiseTimeout_guard_witness :
    (promiseTimeout (⟨50, Except.ok 7⟩ : JsPromise Nat) 30 "late").1
        = Except.error "late" ∧
    (promiseTimeout (⟨20, Except.ok 7⟩ : JsPromise Nat) 30 "late").1
        = Except.ok 7 ∧
    (promiseTimeout (⟨20, Except.error "boom"⟩ : JsPromise Nat) 30 "late").1
        = Except.error "boom" ∧
    RaceAction.cancelOperation
      ∉ (promiseTimeout (⟨50, Except.ok 7⟩ : JsPromise Nat) 30 "late").2 :=
  ⟨(promiseTimeout_guard ⟨50, Except.ok 7⟩ 30 "late").1 (by decide),
   (promiseTimeout_guard ⟨20, Except.ok 7⟩ 30 "late").2.1 (by decide),
   (promiseTimeout_guard ⟨20, Except.error "boom"⟩ 30 "late").2.1 (by decide),
   (promiseTimeout_guard ⟨50, Except.ok 7⟩ 30 "late").2.2⟩

end RooEdit
